import Mathlib

/-
Verification of the PynamoDB low-level connection layer
(src/pynamodb/connection/base.py) against its natural-language
specification.  The Python module is shallowly embedded below:
pure helpers of MetaTable become pure Lean functions, the Connection
operations become functions that thread the table-metadata cache and
record every transport invocation (operation name and request body) in
an explicit transcript, and every Python raise becomes an explicit
error value of the PyErr type.
-/

namespace Pynamo

/-
Wire-format constant names.  The constants module of the repository
(pynamodb/constants.py) is not part of src/, so the string values below
are the standard DynamoDB wire names; no claim depends on the exact
spelling of any of them, only on constants being distinct where the
code distinguishes them.
-/

def TABLE_NAME : String := "TableName"
def KEY_SCHEMA : String := "KeySchema"
def ATTR_NAME : String := "AttributeName"
def ATTR_TYPE : String := "AttributeType"
def KEY_TYPE : String := "KeyType"
def ATTR_DEFINITIONS : String := "AttributeDefinitions"
def TABLE_KEY : String := "Table"
def PROVISIONED_THROUGHPUT : String := "ProvisionedThroughput"
def READ_CAPACITY_UNITS : String := "ReadCapacityUnits"
def WRITE_CAPACITY_UNITS : String := "WriteCapacityUnits"
def GLOBAL_SECONDARY_INDEXES : String := "GlobalSecondaryIndexes"
def LOCAL_SECONDARY_INDEXES : String := "LocalSecondaryIndexes"
def INDEX_NAME : String := "IndexName"
def PROJECTION : String := "Projection"
def KEY : String := "Key"
def ITEM : String := "Item"
def KEYS : String := "Keys"
def EXPECTED : String := "Expected"
def EXISTS : String := "Exists"
def VALUE : String := "Value"
def ACTION : String := "Action"
def ATTR_UPDATES : String := "AttributeUpdates"
def ATTR_VALUE_LIST : String := "AttributeValueList"
def COMPARISON_OPERATOR : String := "ComparisonOperator"
def KEY_CONDITIONS : String := "KeyConditions"
def SCAN_FILTER : String := "ScanFilter"
def SEGMENT : String := "Segment"
def TOTAL_SEGMENTS : String := "TotalSegments"
def SELECT : String := "Select"
def SCAN_INDEX_FORWARD : String := "ScanIndexForward"
def CONSISTENT_READ : String := "ConsistentRead"
def ATTRS_TO_GET : String := "AttributesToGet"
def LIMIT : String := "Limit"
def EXCLUSIVE_START_KEY : String := "ExclusiveStartKey"
def RETURN_CONSUMED_CAPACITY : String := "ReturnConsumedCapacity"
def RETURN_VALUES : String := "ReturnValues"
def RETURN_ITEM_COLL_METRICS : String := "ReturnItemCollectionMetrics"
def REQUEST_ITEMS : String := "RequestItems"
def PUT_REQUEST : String := "PutRequest"
def DELETE_REQUEST : String := "DeleteRequest"
def EQ : String := "EQ"

/-- Modelled from the spec: the types module is not in src/; keyRole is
drawn from the symbolic set containing HASH and RANGE. -/
def HASH : String := "HASH"

/-- Modelled from the spec: the RANGE key role constant. -/
def RANGE : String := "RANGE"

/-- Modelled from the spec: the success status of the HTTP-analog
status handling. -/
def HTTP_OK : Nat := 200

/-- Modelled from the spec: the designated bad-request status, distinct
from the generic failure status; only its distinctness matters. -/
def HTTP_BAD_REQUEST : Nat := 400

/- Transport operation names. -/

def DESCRIBE_TABLE : String := "DescribeTable"
def CREATE_TABLE : String := "CreateTable"
def UPDATE_ITEM : String := "UpdateItem"
def BATCH_WRITE_ITEM : String := "BatchWriteItem"
def SCAN : String := "Scan"
def QUERY : String := "Query"

/-- Modelled from the spec: the enumeration table of section 6;
returnConsumedCapacity allows INDEXES, TOTAL, NONE (the constants
module holding these value sets is not in src/). -/
def RETURN_CONSUMED_CAPACITY_VALUES : List String := ["INDEXES", "TOTAL", "NONE"]

/-- Modelled from the spec: returnValues allows NONE, ALL_OLD,
UPDATED_OLD, ALL_NEW, UPDATED_NEW. -/
def RETURN_VALUES_VALUES : List String :=
  ["NONE", "ALL_OLD", "UPDATED_OLD", "ALL_NEW", "UPDATED_NEW"]

/-- Modelled from the spec: returnItemCollectionMetrics allows SIZE,
NONE. -/
def RETURN_ITEM_COLL_METRICS_VALUES : List String := ["SIZE", "NONE"]

/-- Modelled from the spec: attributeUpdateAction allows PUT, ADD,
DELETE. -/
def ATTR_UPDATE_ACTIONS : List String := ["PUT", "ADD", "DELETE"]

/-- Modelled from the spec: select allows ALL_ATTRIBUTES,
ALL_PROJECTED_ATTRIBUTES, SPECIFIC_ATTRIBUTES, COUNT. -/
def SELECT_VALUES : List String :=
  ["ALL_ATTRIBUTES", "ALL_PROJECTED_ATTRIBUTES", "SPECIFIC_ATTRIBUTES", "COUNT"]

/-- Modelled from the spec: the full comparison-operator set used by
query key conditions (EQ, LE, LT, GE, GT, BEGINS_WITH, BETWEEN); the
claims only need EQ and BETWEEN to be members. -/
def COMPARISON_OPERATOR_VALUES : List String :=
  ["EQ", "LE", "LT", "GE", "GT", "BEGINS_WITH", "BETWEEN"]

/-- Modelled from the spec: the narrower comparison-operator set used
by scan filters; the claims only need EQ to be a member. -/
def SCAN_FILTER_VALUES : List String := ["EQ", "LE", "LT", "GE", "GT"]

/-- Modelled from the spec: the util module defining the pythonic key
conversion is not in src/.  No claim depends on the spelling of the
top-level request keys, so the conversion is modelled as the identity
on the wire constant names. -/
def pythonic (s : String) : String := s

/-- ASCII model of the Python str.upper method (all enumerated values
and claim inputs are ASCII). -/
def pyUpper (s : String) : String := ⟨s.data.map Char.toUpper⟩

/-
Values.  DynValue models the Python values that flow into request
bodies: strings, numbers, booleans, None, lists, and dicts (as
insertion-ordered association lists).
-/

inductive DynValue where
  | str : String → DynValue
  | num : Int → DynValue
  | bool : Bool → DynValue
  | null : DynValue
  | list : List DynValue → DynValue
  | map : List (String × DynValue) → DynValue
deriving Repr

/-- Python truthiness of a value ("if x:"). -/
def DynValue.truthy : DynValue → Bool
  | .str s => !(s == "")
  | .num n => !(n == 0)
  | .bool b => b
  | .null => false
  | .list l => !l.isEmpty
  | .map m => !m.isEmpty

/-- Request bodies: Python dicts from string keys, in insertion order. -/
abbrev Kwargs := List (String × DynValue)

/-- Python dict assignment d[k] = v: replace in place if the key is
present, else append. -/
def pyInsert {β : Type} (m : List (String × β)) (k : String) (v : β) :
    List (String × β) :=
  if m.any (fun p => p.1 == k) then
    m.map (fun p => if p.1 == k then (k, v) else p)
  else m ++ [(k, v)]

/-- Python dict.update: insert every pair of the second dict. -/
def pyUpdate {β : Type} (m : List (String × β)) (n : List (String × β)) :
    List (String × β) :=
  n.foldl (fun acc p => pyInsert acc p.1 p.2) m

/-- Python dict lookup returning an option. -/
def pyGet {β : Type} (m : List (String × β)) (k : String) : Option β :=
  (m.find? (fun p => p.1 == k)).map Prod.snd

/-
Table metadata (the payload wrapped by MetaTable).
-/

structure AttrDef where
  attrName : String
  attrType : String
deriving Repr, DecidableEq

structure KeySchemaEntry where
  attrName : String
  keyType : String
deriving Repr, DecidableEq

structure MetaTableData where
  keySchema : List KeySchemaEntry
  attrDefinitions : List AttrDef
deriving Repr, DecidableEq

/-- Errors.  Each constructor embeds one raise site of the source (all
ValueError raises are distinguished by their payload); the per-kind
OperationError classes (TableError, UpdateError, PutError, ScanError,
QueryError) carry the raw response content. -/
inductive PyErr where
  | unknownAttribute (name : String) (declared : List String)
  | invalidEnum (field : String) (allowed : List String)
  | emptyAttributeUpdates
  | requiredArgument (name : String)
  | putOrDeleteRequired
  | noneAttributeError
  | tableError (content : String)
  | updateError (content : String)
  | putError (content : String)
  | scanError (content : String)
  | queryError (content : String)
deriving Repr, DecidableEq

/-- Python uses the hash or range key name, an Optional, directly as a
dict key or lookup argument; absence (None) is modelled by the string
rendering used in the formatted error.  All claims exercise schemas
where the name is present. -/
def keyNameOrNone : Option String → String
  | some s => s
  | none => "None"

/- MetaTable methods (base.py lines 37-135). -/

/-- MetaTable.hash_keyname: first key-schema entry whose role is HASH
(the loop breaks at the first match); None when there is none. -/
def mt_hash_keyname (d : MetaTableData) : Option String :=
  (d.keySchema.find? (fun a => a.keyType == HASH)).map KeySchemaEntry.attrName

/-- MetaTable.range_keyname: the loop has no break, so the last RANGE
entry wins; None when there is none. -/
def mt_range_keyname (d : MetaTableData) : Option String :=
  ((d.keySchema.filter (fun a => a.keyType == RANGE)).getLast?).map
    KeySchemaEntry.attrName

/-- The declared attribute names, in declaration order (the list
interpolated into the unknown-attribute error). -/
def attrNames (d : MetaTableData) : List String :=
  d.attrDefinitions.map AttrDef.attrName

/-- MetaTable.get_attribute_type: type of the first matching attribute
definition; ValueError naming the declared attributes otherwise. -/
def mt_get_attribute_type (d : MetaTableData) (attribute_name : String) :
    Except PyErr String :=
  match d.attrDefinitions.find? (fun a => a.attrName == attribute_name) with
  | some a => Except.ok a.attrType
  | none => Except.error (PyErr.unknownAttribute attribute_name (attrNames d))

/-- Attribute-type lookup applied to an optional key name, as the
source does with hash_keyname and range_keyname. -/
def mt_get_attribute_type_opt (d : MetaTableData) :
    Option String → Except PyErr String
  | some n => mt_get_attribute_type d n
  | none => Except.error (PyErr.unknownAttribute "None" (attrNames d))

/-- MetaTable.get_identifier_map. -/
def mt_get_identifier_map (d : MetaTableData) (hash_key : DynValue)
    (range_key : Option DynValue) (key : String) : Except PyErr Kwargs :=
  match mt_get_attribute_type_opt d (mt_hash_keyname d) with
  | Except.error e => Except.error e
  | Except.ok hty =>
    let inner : List (String × DynValue) :=
      [(keyNameOrNone (mt_hash_keyname d), DynValue.map [(hty, hash_key)])]
    match range_key with
    | some rv =>
      if rv.truthy then
        match mt_get_attribute_type_opt d (mt_range_keyname d) with
        | Except.error e => Except.error e
        | Except.ok rty =>
          Except.ok [(pythonic key, DynValue.map
            (pyInsert inner (keyNameOrNone (mt_range_keyname d))
              (DynValue.map [(rty, rv)])))]
      else Except.ok [(pythonic key, DynValue.map inner)]
    | none => Except.ok [(pythonic key, DynValue.map inner)]

/-- Expected conditions: presence of the EXISTS and VALUE keys in the
per-attribute condition dict. -/
structure ExpCondition where
  ex : Option DynValue
  val : Option DynValue
deriving Repr

/-- The per-attribute entries of MetaTable.get_expected_map; a
condition with neither an EXISTS nor a VALUE key is skipped. -/
def buildExpectedEntries (d : MetaTableData) :
    List (String × ExpCondition) → Except PyErr (List (String × DynValue))
  | [] => Except.ok []
  | (k, cond) :: rest =>
    match cond.ex with
    | some b =>
      (buildExpectedEntries d rest).map
        (fun r => (k, DynValue.map [(EXISTS, b)]) :: r)
    | none =>
      match cond.val with
      | some v =>
        match mt_get_attribute_type d k with
        | Except.error e => Except.error e
        | Except.ok ty =>
          (buildExpectedEntries d rest).map
            (fun r => (k, DynValue.map [(VALUE, DynValue.map [(ty, v)])]) :: r)
      | none => buildExpectedEntries d rest

/-- MetaTable.get_expected_map. -/
def mt_get_expected_map (d : MetaTableData)
    (expected : List (String × ExpCondition)) : Except PyErr Kwargs :=
  (buildExpectedEntries d expected).map
    (fun es => [(pythonic EXPECTED, DynValue.map es)])

/-- MetaTable.get_exclusive_start_key_map. -/
def mt_get_exclusive_start_key_map (d : MetaTableData)
    (exclusive_start_key : DynValue) : Except PyErr Kwargs :=
  match mt_get_attribute_type_opt d (mt_hash_keyname d) with
  | Except.error e => Except.error e
  | Except.ok ty =>
    Except.ok [(pythonic EXCLUSIVE_START_KEY, DynValue.map
      [(keyNameOrNone (mt_hash_keyname d), DynValue.map
        [(ty, exclusive_start_key)])])]

/-- The loop body of MetaTable.get_item_attribute_map: a dict-valued
attribute is passed through verbatim, any other value is wrapped with
its declared type. -/
def buildItemEntries (d : MetaTableData) :
    List (String × DynValue) → Except PyErr (List (String × DynValue))
  | [] => Except.ok []
  | (k, v) :: rest =>
    match v with
    | DynValue.map m =>
      (buildItemEntries d rest).map (fun r => (k, DynValue.map m) :: r)
    | v =>
      match mt_get_attribute_type d k with
      | Except.error e => Except.error e
      | Except.ok ty =>
        (buildItemEntries d rest).map
          (fun r => (k, DynValue.map [(ty, v)]) :: r)

/-- MetaTable.get_item_attribute_map. -/
def mt_get_item_attribute_map (d : MetaTableData)
    (attributes : List (String × DynValue)) (item_key : String)
    (pythonic_key : Bool) : Except PyErr Kwargs :=
  let ik := if pythonic_key then pythonic item_key else item_key
  (buildItemEntries d attributes).map (fun es => [(ik, DynValue.map es)])

/-
Connection layer.  A Transport models the narrow execute interface of
the spec; Conn models the per-connection table-metadata cache
(Connection._tables); every operation returns the outcome (decoded
body or error), the final cache, and the transcript of transport
invocations in order.
-/

/-- Transport response status (response.ok, response.status_code,
response.content). -/
structure Resp where
  ok : Bool
  status_code : Nat
  content : String
deriving Repr, DecidableEq

/-- One transport reply: the status, the table payload under the Table
key of a DescribeTable body, and the decoded body handed back to the
caller. -/
structure Reply where
  resp : Resp
  tableData : MetaTableData
  data : DynValue
deriving Repr

/-- The transport collaborator: operation name and request body in,
reply out. -/
def Transport := String → Kwargs → Reply

/-- Connection state: the table-metadata cache keyed by table name. -/
structure Conn where
  tables : List (String × MetaTableData)
deriving Repr, DecidableEq

/-- Outcome of one Connection method: result or error, final cache,
and the transcript of transport calls made, in order. -/
abbrev OpOut (α : Type) := Except PyErr α × Conn × List (String × Kwargs)

/-- Sequencing two steps: an error short-circuits, transcripts
concatenate, and the cache threads through. -/
def step {α β : Type} (x : OpOut α) (f : α → Conn → OpOut β) : OpOut β :=
  match x with
  | (Except.error e, c, cs) => (Except.error e, c, cs)
  | (Except.ok a, c, cs) =>
    match f a c with
    | (r, c2, cs2) => (r, c2, cs ++ cs2)

/-- A step that produces a value with no transport call. -/
def pureOp {α : Type} (a : α) (c : Conn) : OpOut α := (Except.ok a, c, [])

/-- A pure Except computation as a step. -/
def liftE {α : Type} (e : Except PyErr α) (c : Conn) : OpOut α := (e, c, [])

/-- Connection.get_meta_table: serve from the cache unless absent or
refresh is requested; on a transport fetch, a bad-request status yields
None, any other failure raises TableError, and success caches the
Table payload. -/
def get_meta_table (tr : Transport) (conn : Conn) (table_name : String)
    (refresh : Bool) : OpOut (Option MetaTableData) :=
  if (conn.tables.find? (fun p => p.1 == table_name)).isNone || refresh then
    let kwargs : Kwargs := [(pythonic TABLE_NAME, DynValue.str table_name)]
    let reply := tr DESCRIBE_TABLE kwargs
    if reply.resp.ok then
      (Except.ok (some reply.tableData),
        ⟨pyInsert conn.tables table_name reply.tableData⟩,
        [(DESCRIBE_TABLE, kwargs)])
    else if reply.resp.status_code == HTTP_BAD_REQUEST then
      (Except.ok none, conn, [(DESCRIBE_TABLE, kwargs)])
    else
      (Except.error (PyErr.tableError reply.resp.content), conn,
        [(DESCRIBE_TABLE, kwargs)])
  else
    (Except.ok (pyGet conn.tables table_name), conn, [])

/-- Accessing a MetaTable method through a None result of
get_meta_table is a Python AttributeError. -/
def requireMeta : Option MetaTableData → Except PyErr MetaTableData
  | some d => Except.ok d
  | none => Except.error PyErr.noneAttributeError

/-- Connection.get_attribute_type. -/
def conn_get_attribute_type (tr : Transport) (conn : Conn)
    (table_name : String) (attribute_name : String) : OpOut String :=
  step (get_meta_table tr conn table_name false) (fun md c =>
    liftE ((requireMeta md).bind
      (fun d => mt_get_attribute_type d attribute_name)) c)

/-- Connection.get_identifier_map. -/
def conn_get_identifier_map (tr : Transport) (conn : Conn)
    (table_name : String) (hash_key : DynValue) (range_key : Option DynValue)
    (key : String) : OpOut Kwargs :=
  step (get_meta_table tr conn table_name false) (fun md c =>
    liftE ((requireMeta md).bind
      (fun d => mt_get_identifier_map d hash_key range_key key)) c)

/-- Connection.get_expected_map. -/
def conn_get_expected_map (tr : Transport) (conn : Conn)
    (table_name : String) (expected : List (String × ExpCondition)) :
    OpOut Kwargs :=
  step (get_meta_table tr conn table_name false) (fun md c =>
    liftE ((requireMeta md).bind (fun d => mt_get_expected_map d expected)) c)

/-- Connection.get_exclusive_start_key_map. -/
def conn_get_exclusive_start_key_map (tr : Transport) (conn : Conn)
    (table_name : String) (exclusive_start_key : DynValue) : OpOut Kwargs :=
  step (get_meta_table tr conn table_name false) (fun md c =>
    liftE ((requireMeta md).bind
      (fun d => mt_get_exclusive_start_key_map d exclusive_start_key)) c)

/-- Connection.get_item_attribute_map. -/
def conn_get_item_attribute_map (tr : Transport) (conn : Conn)
    (table_name : String) (attributes : List (String × DynValue))
    (item_key : String) (pythonic_key : Bool) : OpOut Kwargs :=
  step (get_meta_table tr conn table_name false) (fun md c =>
    liftE ((requireMeta md).bind
      (fun d => mt_get_item_attribute_map d attributes item_key pythonic_key)) c)

/-- Connection.get_consumed_capacity_map; note the source formats the
error with the item-collection-metrics field name. -/
def get_consumed_capacity_map (return_consumed_capacity : String) :
    Except PyErr Kwargs :=
  if pyUpper return_consumed_capacity ∈ RETURN_CONSUMED_CAPACITY_VALUES then
    Except.ok [(pythonic RETURN_CONSUMED_CAPACITY,
      DynValue.str (pyUpper return_consumed_capacity))]
  else
    Except.error (PyErr.invalidEnum RETURN_ITEM_COLL_METRICS
      RETURN_CONSUMED_CAPACITY_VALUES)

/-- Connection.get_return_values_map. -/
def get_return_values_map (return_values : String) : Except PyErr Kwargs :=
  if pyUpper return_values ∈ RETURN_VALUES_VALUES then
    Except.ok [(pythonic RETURN_VALUES, DynValue.str (pyUpper return_values))]
  else
    Except.error (PyErr.invalidEnum RETURN_VALUES RETURN_VALUES_VALUES)

/-- Connection.get_item_collection_map. -/
def get_item_collection_map (return_item_collection_metrics : String) :
    Except PyErr Kwargs :=
  if pyUpper return_item_collection_metrics ∈ RETURN_ITEM_COLL_METRICS_VALUES
  then
    Except.ok [(pythonic RETURN_ITEM_COLL_METRICS,
      DynValue.str (pyUpper return_item_collection_metrics))]
  else
    Except.error (PyErr.invalidEnum RETURN_ITEM_COLL_METRICS
      RETURN_ITEM_COLL_METRICS_VALUES)

/- Python truthiness of the optional arguments. -/

/-- Truthiness of an optional string argument. -/
def optStrTruthy : Option String → Bool
  | some s => !(s == "")
  | none => false

/-- Truthiness of an optional integer argument (zero is falsy). -/
def optIntTruthy : Option Int → Bool
  | some n => !(n == 0)
  | none => false

/-- Truthiness of an optional list or dict argument (empty is falsy). -/
def optListTruthy {α : Type} : Option (List α) → Bool
  | some l => !l.isEmpty
  | none => false

/-- Connection.describe_table: always refreshes; a MetaTable object is
always truthy, so its data is returned, while a None result stays
None. -/
def describe_table (tr : Transport) (conn : Conn) (table_name : String) :
    OpOut (Option MetaTableData) :=
  step (get_meta_table tr conn table_name true) (fun tbl c =>
    match tbl with
    | some d => (Except.ok (some d), c, [])
    | none => (Except.ok none, c, []))

/- create_table (base.py lines 203-266). -/

/-- Caller-supplied attribute definition entry (values read with
dict.get). -/
structure AttrDefArg where
  attribute_name : DynValue
  attribute_type : DynValue
deriving Repr

/-- Caller-supplied key schema entry; the key type is stringified and
uppercased by the source, so it is modelled as a string. -/
structure KeySchemaArg where
  attribute_name : DynValue
  key_type : String
deriving Repr

/-- Caller-supplied secondary index entry (payloads pass through
verbatim). -/
structure IndexArg where
  index_name : DynValue
  key_schema : DynValue
  projection : DynValue
  provisioned_throughput : DynValue
deriving Repr

/-- The transcoded attribute-definition entry of create_table. -/
def transcodeAttrDef (a : AttrDefArg) : DynValue :=
  DynValue.map [(ATTR_NAME, a.attribute_name), (ATTR_TYPE, a.attribute_type)]

/-- The transcoded key-schema entry of create_table (key type
uppercased). -/
structure KeySchemaOut where
  attrName : DynValue
  keyType : String
deriving Repr

/-- Transcoding one caller key-schema entry. -/
def transcodeKey (k : KeySchemaArg) : KeySchemaOut :=
  ⟨k.attribute_name, pyUpper k.key_type⟩

/-- Lexicographic code-point comparison of character lists: the string
order Python uses when sorting by the KeyType value. -/
def charLeB : List Char → List Char → Bool
  | [], _ => true
  | _ :: _, [] => false
  | a :: as, b :: bs =>
    if a.toNat < b.toNat then true
    else if b.toNat < a.toNat then false
    else charLeB as bs

/-- charLeB is total. -/
theorem charLeB_total (as : List Char) :
    ∀ bs, charLeB as bs = true ∨ charLeB bs as = true := by
  induction as with
  | nil => intro bs; left; rfl
  | cons a as ih =>
    intro bs
    cases bs with
    | nil => right; rfl
    | cons b bs =>
      rcases Nat.lt_trichotomy a.toNat b.toNat with h | h | h
      · left; simp [charLeB, h]
      · have h1 : ¬ a.toNat < b.toNat := by omega
        have h2 : ¬ b.toNat < a.toNat := by omega
        rcases ih bs with hh | hh
        · left; simp [charLeB, h1, h2, hh]
        · right; simp [charLeB, h1, h2, hh]
      · right; simp [charLeB, h]

/-- charLeB is transitive. -/
theorem charLeB_trans (as : List Char) :
    ∀ bs cs, charLeB as bs = true → charLeB bs cs = true →
      charLeB as cs = true := by
  induction as with
  | nil => intro bs cs _ _; rfl
  | cons a as ih =>
    intro bs cs h1 h2
    cases bs with
    | nil => exact absurd h1 (by simp [charLeB])
    | cons b bs =>
      cases cs with
      | nil => exact absurd h2 (by simp [charLeB])
      | cons c cs =>
        simp only [charLeB] at h1 h2 ⊢
        split at h1
        case isTrue hab =>
          split at h2
          case isTrue hbc => simp [show a.toNat < c.toNat from by omega]
          case isFalse hbc =>
            split at h2
            case isTrue hcb => exact absurd h2 (by simp)
            case isFalse hcb => simp [show a.toNat < c.toNat from by omega]
        case isFalse hab =>
          split at h1
          case isTrue hba => exact absurd h1 (by simp)
          case isFalse hba =>
            split at h2
            case isTrue hbc =>
              have h3 : a.toNat < c.toNat := by omega
              simp [h3]
            case isFalse hbc =>
              split at h2
              case isTrue hcb => exact absurd h2 (by simp)
              case isFalse hcb =>
                have h3 : ¬ a.toNat < c.toNat := by omega
                have h4 : ¬ c.toNat < a.toNat := by omega
                simp only [if_neg h3, if_neg h4]
                exact ih bs cs h1 h2

/-- Python string comparison: lexicographic by code point. -/
def pyStrLe (x y : String) : Bool := charLeB x.data y.data

/-- The sort key of the emitted key schema: ascending key role
string. -/
def keyRoleLE : KeySchemaOut → KeySchemaOut → Prop :=
  fun a b => pyStrLe a.keyType b.keyType = true

instance : DecidableRel keyRoleLE :=
  fun a b => inferInstanceAs (Decidable (pyStrLe a.keyType b.keyType = true))

instance : IsTotal KeySchemaOut keyRoleLE :=
  ⟨fun a b => charLeB_total a.keyType.data b.keyType.data⟩

instance : IsTrans KeySchemaOut keyRoleLE :=
  ⟨fun _ b _ hab hbc =>
    charLeB_trans _ b.keyType.data _ hab hbc⟩

/-- The emitted key schema: transcode each entry in order, then sort by
key role.  Python sorted is a stable sort keyed on the KeyType string;
any stable sort under the same total preorder produces the same list,
so it is embedded as a stable insertion sort. -/
def emitKeySchema (ks : List KeySchemaArg) : List KeySchemaOut :=
  List.insertionSort keyRoleLE (ks.map transcodeKey)

/-- Rendering one emitted key-schema entry back into the request
body. -/
def renderKeyOut (k : KeySchemaOut) : DynValue :=
  DynValue.map [(ATTR_NAME, k.attrName), (KEY_TYPE, DynValue.str k.keyType)]

/-- The transcoded global secondary index entry. -/
def transcodeGSI (i : IndexArg) : DynValue :=
  DynValue.map [(INDEX_NAME, i.index_name), (KEY_SCHEMA, i.key_schema),
    (PROJECTION, i.projection),
    (PROVISIONED_THROUGHPUT, i.provisioned_throughput)]

/-- The transcoded local secondary index entry (no throughput). -/
def transcodeLSI (i : IndexArg) : DynValue :=
  DynValue.map [(INDEX_NAME, i.index_name), (KEY_SCHEMA, i.key_schema),
    (PROJECTION, i.projection)]

/-- Connection.create_table.  Note the source checks the two required
arguments against None only (an is-None test, not truthiness), and
compares the final status against HTTP_OK. -/
def create_table (tr : Transport) (table_name : String)
    (attribute_definitions : Option (List AttrDefArg))
    (key_schema : Option (List KeySchemaArg))
    (read_capacity_units write_capacity_units : DynValue)
    (global_secondary_indexes local_secondary_indexes :
      Option (List IndexArg)) :
    Except PyErr DynValue × List (String × Kwargs) :=
  let kwargs0 : Kwargs :=
    [(pythonic TABLE_NAME, DynValue.str table_name),
     (pythonic PROVISIONED_THROUGHPUT, DynValue.map
       [(READ_CAPACITY_UNITS, read_capacity_units),
        (WRITE_CAPACITY_UNITS, write_capacity_units)])]
  match attribute_definitions with
  | none => (Except.error (PyErr.requiredArgument "attribute_definitions"), [])
  | some ad =>
    let kwargs1 := pyInsert kwargs0 (pythonic ATTR_DEFINITIONS)
      (DynValue.list (ad.map transcodeAttrDef))
    let kwargs2 :=
      if optListTruthy global_secondary_indexes then
        pyInsert kwargs1 (pythonic GLOBAL_SECONDARY_INDEXES)
          (DynValue.list ((global_secondary_indexes.getD []).map transcodeGSI))
      else kwargs1
    match key_schema with
    | none => (Except.error (PyErr.requiredArgument "key_schema"), [])
    | some ks =>
      let kwargs3 := pyInsert kwargs2 (pythonic KEY_SCHEMA)
        (DynValue.list ((emitKeySchema ks).map renderKeyOut))
      let kwargs4 :=
        if optListTruthy local_secondary_indexes then
          pyInsert kwargs3 (pythonic LOCAL_SECONDARY_INDEXES)
            (DynValue.list ((local_secondary_indexes.getD []).map
              transcodeLSI))
        else kwargs3
      let reply := tr CREATE_TABLE kwargs4
      if reply.resp.status_code == HTTP_OK then
        (Except.ok reply.data, [(CREATE_TABLE, kwargs4)])
      else
        (Except.error (PyErr.tableError reply.resp.content),
          [(CREATE_TABLE, kwargs4)])

/- update_item (base.py lines 437-481). -/

/-- One caller-supplied update action: the Action and Value keys read
with dict.get (a missing Value becomes None in the request). -/
structure UpdateSpec where
  action : Option String
  value : DynValue
deriving Repr

/-- The attribute-updates loop of update_item: resolve the declared
type first, then reject an action outside the fixed enumeration (the
comparison is on the raw action string, never uppercased; a missing
action fails the same membership test). -/
def build_attr_updates (tr : Transport) (c : Conn) (tn : String) :
    List (String × UpdateSpec) → OpOut (List (String × DynValue))
  | [] => pureOp [] c
  | (k, u) :: rest =>
    step (conn_get_attribute_type tr c tn k) (fun ty c1 =>
      match u.action with
      | some a =>
        if a ∈ ATTR_UPDATE_ACTIONS then
          step (build_attr_updates tr c1 tn rest) (fun r c2 =>
            pureOp ((k, DynValue.map [(ACTION, DynValue.str a),
              (VALUE, DynValue.map [(ty, u.value)])]) :: r) c2)
        else (Except.error (PyErr.invalidEnum ACTION ATTR_UPDATE_ACTIONS),
          c1, [])
      | none => (Except.error (PyErr.invalidEnum ACTION ATTR_UPDATE_ACTIONS),
          c1, []))

/-- Connection.update_item, following the source order: identifier map,
optional expected map, the three optional enumerated options, then the
emptiness check on attribute_updates, then the update map, then the
transport call. -/
def update_item (tr : Transport) (conn : Conn) (table_name : String)
    (hash_key : DynValue) (range_key : Option DynValue)
    (attribute_updates : Option (List (String × UpdateSpec)))
    (expected : Option (List (String × ExpCondition)))
    (return_consumed_capacity return_item_collection_metrics
      return_values : Option String) : OpOut DynValue :=
  let kwargs0 : Kwargs := [(pythonic TABLE_NAME, DynValue.str table_name)]
  step (conn_get_identifier_map tr conn table_name hash_key range_key KEY)
    (fun idm c1 =>
  step (if optListTruthy expected then
          conn_get_expected_map tr c1 table_name (expected.getD [])
        else pureOp [] c1) (fun expm c2 =>
  step (liftE (if optStrTruthy return_consumed_capacity then
          get_consumed_capacity_map (return_consumed_capacity.getD "")
        else Except.ok []) c2) (fun rccm c3 =>
  step (liftE (if optStrTruthy return_item_collection_metrics then
          get_item_collection_map (return_item_collection_metrics.getD "")
        else Except.ok []) c3) (fun ricmm c4 =>
  step (liftE (if optStrTruthy return_values then
          get_return_values_map (return_values.getD "")
        else Except.ok []) c4) (fun rvm c5 =>
  if optListTruthy attribute_updates then
    step (build_attr_updates tr c5 table_name (attribute_updates.getD []))
      (fun aum c6 =>
        let kwargs := pyInsert
          (pyUpdate (pyUpdate (pyUpdate (pyUpdate (pyUpdate kwargs0 idm)
            expm) rccm) ricmm) rvm)
          (pythonic ATTR_UPDATES) (DynValue.map aum)
        let reply := tr UPDATE_ITEM kwargs
        if reply.resp.ok then
          (Except.ok reply.data, c6, [(UPDATE_ITEM, kwargs)])
        else
          (Except.error (PyErr.updateError reply.resp.content), c6,
            [(UPDATE_ITEM, kwargs)]))
  else (Except.error PyErr.emptyAttributeUpdates, c5, []))))))

/- batch_write_item (base.py lines 515-552). -/

/-- The put-items loop: each item becomes a PutRequest wrapping its
item attribute map (top key Item, not pythonified). -/
def build_put_list (tr : Transport) (c : Conn) (tn : String) :
    List (List (String × DynValue)) → OpOut (List DynValue)
  | [] => pureOp [] c
  | item :: rest =>
    step (conn_get_item_attribute_map tr c tn item ITEM false) (fun m c1 =>
      step (build_put_list tr c1 tn rest) (fun r c2 =>
        pureOp (DynValue.map [(PUT_REQUEST, DynValue.map m)] :: r) c2))

/-- The delete-items loop: each item becomes a DeleteRequest wrapping
its item attribute map (top key Key, not pythonified). -/
def build_delete_list (tr : Transport) (c : Conn) (tn : String) :
    List (List (String × DynValue)) → OpOut (List DynValue)
  | [] => pureOp [] c
  | item :: rest =>
    step (conn_get_item_attribute_map tr c tn item KEY false) (fun m c1 =>
      step (build_delete_list tr c1 tn rest) (fun r c2 =>
        pureOp (DynValue.map [(DELETE_REQUEST, DynValue.map m)] :: r) c2))

/-- Connection.batch_write_item: rejects only the case where both item
arguments are None (an is-None test, so empty lists pass); the final
per-table request list is the delete list concatenated before the put
list. -/
def batch_write_item (tr : Transport) (conn : Conn) (table_name : String)
    (put_items delete_items : Option (List (List (String × DynValue))))
    (return_consumed_capacity return_item_collection_metrics :
      Option String) : OpOut DynValue :=
  match put_items, delete_items with
  | none, none => (Except.error PyErr.putOrDeleteRequired, conn, [])
  | put_items, delete_items =>
    let kwargs0 : Kwargs :=
      [(pythonic REQUEST_ITEMS, DynValue.map [(table_name, DynValue.list [])])]
    step (liftE (if optStrTruthy return_consumed_capacity then
            get_consumed_capacity_map (return_consumed_capacity.getD "")
          else Except.ok []) conn) (fun rccm c1 =>
    step (liftE (if optStrTruthy return_item_collection_metrics then
            get_item_collection_map (return_item_collection_metrics.getD "")
          else Except.ok []) c1) (fun ricmm c2 =>
    step (if optListTruthy put_items then
            build_put_list tr c2 table_name (put_items.getD [])
          else pureOp [] c2) (fun puts c3 =>
    step (if optListTruthy delete_items then
            build_delete_list tr c3 table_name (delete_items.getD [])
          else pureOp [] c3) (fun dels c4 =>
    let kwargs := pyInsert (pyUpdate (pyUpdate kwargs0 rccm) ricmm)
      (pythonic REQUEST_ITEMS)
      (DynValue.map [(table_name, DynValue.list (dels ++ puts))])
    let reply := tr BATCH_WRITE_ITEM kwargs
    if reply.resp.ok then
      (Except.ok reply.data, c4, [(BATCH_WRITE_ITEM, kwargs)])
    else
      (Except.error (PyErr.putError reply.resp.content), c4,
        [(BATCH_WRITE_ITEM, kwargs)])))))

/- scan and query (base.py lines 611-713). -/

/-- One caller-supplied condition: the ComparisonOperator and
AttributeValueList keys of the per-attribute condition dict. -/
structure Condition where
  comparison_operator : Option String
  attr_value_list : List DynValue
deriving Repr

/-- The Python dict comprehension over the supplied value list with the
single key attr_type: repeated assignment under one key keeps only the
last value. -/
def samekey_dict (attr_type : String) (vs : List DynValue) :
    List (String × DynValue) :=
  vs.foldl (fun dict v => pyInsert dict attr_type v) []

/-- The per-attribute condition entry that scan and query both emit:
an AttributeValueList holding the one comprehension dict, and the
operator. -/
def condition_entry (attr_type : String) (operator : String)
    (vs : List DynValue) : DynValue :=
  DynValue.map [(ATTR_VALUE_LIST, DynValue.list
      [DynValue.map (samekey_dict attr_type vs)]),
    (COMPARISON_OPERATOR, DynValue.str operator)]

/-- The scan-filter loop: resolve the declared type, then reject an
operator outside the scan enumeration (a missing operator fails the
same membership test). -/
def build_scan_filter (tr : Transport) (c : Conn) (tn : String) :
    List (String × Condition) → OpOut (List (String × DynValue))
  | [] => pureOp [] c
  | (k, cond) :: rest =>
    step (conn_get_attribute_type tr c tn k) (fun ty c1 =>
      match cond.comparison_operator with
      | some op =>
        if op ∈ SCAN_FILTER_VALUES then
          step (build_scan_filter tr c1 tn rest) (fun r c2 =>
            pureOp ((k, condition_entry ty op cond.attr_value_list) :: r) c2)
        else (Except.error (PyErr.invalidEnum COMPARISON_OPERATOR
            SCAN_FILTER_VALUES), c1, [])
      | none => (Except.error (PyErr.invalidEnum COMPARISON_OPERATOR
          SCAN_FILTER_VALUES), c1, []))

/-- Connection.scan.  attributes_to_get is gated by an is-not-None
test; limit, segment, and total_segments are gated by truthiness (so a
zero segment is dropped); the scan filter is validated and emitted
last. -/
def scan (tr : Transport) (conn : Conn) (table_name : String)
    (attributes_to_get : Option (List String)) (limit : Option Int)
    (scan_filter : Option (List (String × Condition)))
    (return_consumed_capacity : Option String)
    (exclusive_start_key : Option DynValue)
    (segment total_segments : Option Int) : OpOut DynValue :=
  let kwargs0 : Kwargs := [(pythonic TABLE_NAME, DynValue.str table_name)]
  let kwargs1 := match attributes_to_get with
    | some l => pyInsert kwargs0 (pythonic ATTRS_TO_GET)
        (DynValue.list (l.map DynValue.str))
    | none => kwargs0
  let kwargs2 :=
    if optIntTruthy limit then
      pyInsert kwargs1 (pythonic LIMIT) (DynValue.num (limit.getD 0))
    else kwargs1
  step (liftE (if optStrTruthy return_consumed_capacity then
          get_consumed_capacity_map (return_consumed_capacity.getD "")
        else Except.ok []) conn) (fun rccm c1 =>
  step (match exclusive_start_key with
        | some esk =>
          if esk.truthy then
            conn_get_exclusive_start_key_map tr c1 table_name esk
          else pureOp [] c1
        | none => pureOp [] c1) (fun eskm c2 =>
  let kwargs3 := pyUpdate (pyUpdate kwargs2 rccm) eskm
  let kwargs4 :=
    if optIntTruthy segment then
      pyInsert kwargs3 (pythonic SEGMENT) (DynValue.num (segment.getD 0))
    else kwargs3
  let kwargs5 :=
    if optIntTruthy total_segments then
      pyInsert kwargs4 (pythonic TOTAL_SEGMENTS)
        (DynValue.num (total_segments.getD 0))
    else kwargs4
  step (if optListTruthy scan_filter then
          build_scan_filter tr c2 table_name (scan_filter.getD [])
        else pureOp [] c2) (fun sf c3 =>
  let kwargs6 :=
    if optListTruthy scan_filter then
      pyInsert kwargs5 (pythonic SCAN_FILTER) (DynValue.map sf)
    else kwargs5
  let reply := tr SCAN kwargs6
  if reply.resp.ok then
    (Except.ok reply.data, c3, [(SCAN, kwargs6)])
  else
    (Except.error (PyErr.scanError reply.resp.content), c3,
      [(SCAN, kwargs6)]))))

/-- The key-conditions loop of query: each caller condition is inserted
into the condition map already holding the base hash-key condition (so
a caller condition on the hash key overrides it); the operator is
checked against the full query enumeration. -/
def build_key_conditions (tr : Transport) (c : Conn) (tn : String)
    (acc : List (String × DynValue)) :
    List (String × Condition) → OpOut (List (String × DynValue))
  | [] => pureOp acc c
  | (k, cond) :: rest =>
    step (conn_get_attribute_type tr c tn k) (fun ty c1 =>
      match cond.comparison_operator with
      | some op =>
        if op ∈ COMPARISON_OPERATOR_VALUES then
          build_key_conditions tr c1 tn
            (pyInsert acc k (condition_entry ty op cond.attr_value_list)) rest
        else (Except.error (PyErr.invalidEnum COMPARISON_OPERATOR
            COMPARISON_OPERATOR_VALUES), c1, [])
      | none => (Except.error (PyErr.invalidEnum COMPARISON_OPERATOR
          COMPARISON_OPERATOR_VALUES), c1, []))

/-- Connection.query: optional pass-through toggles, an uppercased and
validated select, then the always-present equality condition on the
hash key merged with the caller key conditions. -/
def query (tr : Transport) (conn : Conn) (table_name : String)
    (hash_key : DynValue) (attributes_to_get : Option (List String))
    (consistent_read : Bool) (exclusive_start_key : Option DynValue)
    (index_name : Option String)
    (key_conditions : Option (List (String × Condition)))
    (limit : Option Int) (return_consumed_capacity : Option String)
    (scan_index_forward : Option Bool) (select : Option String) :
    OpOut DynValue :=
  let kwargs0 : Kwargs := [(pythonic TABLE_NAME, DynValue.str table_name)]
  let kwargs1 :=
    if optListTruthy attributes_to_get then
      pyInsert kwargs0 (pythonic ATTRS_TO_GET)
        (DynValue.list ((attributes_to_get.getD []).map DynValue.str))
    else kwargs0
  let kwargs2 :=
    if consistent_read then
      pyInsert kwargs1 (pythonic CONSISTENT_READ) (DynValue.bool true)
    else kwargs1
  step (match exclusive_start_key with
        | some esk =>
          if esk.truthy then
            conn_get_exclusive_start_key_map tr conn table_name esk
          else pureOp [] conn
        | none => pureOp [] conn) (fun eskm c1 =>
  let kwargs3 := pyUpdate kwargs2 eskm
  let kwargs4 :=
    if optStrTruthy index_name then
      pyInsert kwargs3 (pythonic INDEX_NAME)
        (DynValue.str (index_name.getD ""))
    else kwargs3
  let kwargs5 :=
    if optIntTruthy limit then
      pyInsert kwargs4 (pythonic LIMIT) (DynValue.num (limit.getD 0))
    else kwargs4
  step (liftE (if optStrTruthy return_consumed_capacity then
          get_consumed_capacity_map (return_consumed_capacity.getD "")
        else Except.ok []) c1) (fun rccm c2 =>
  let kwargs6 := pyUpdate kwargs5 rccm
  step (liftE (if optStrTruthy select then
          (if pyUpper (select.getD "") ∈ SELECT_VALUES then
            Except.ok [(pythonic SELECT,
              DynValue.str (pyUpper (select.getD "")))]
          else Except.error (PyErr.invalidEnum SELECT SELECT_VALUES))
        else Except.ok []) c2) (fun selm c3 =>
  let kwargs7 := pyUpdate kwargs6 selm
  let kwargs8 := match scan_index_forward with
    | some b => pyInsert kwargs7 (pythonic SCAN_INDEX_FORWARD)
        (DynValue.bool b)
    | none => kwargs7
  step (get_meta_table tr c3 table_name false) (fun md c4 =>
  step (liftE (requireMeta md) c4) (fun d c5 =>
  step (conn_get_attribute_type tr c5 table_name
          (keyNameOrNone (mt_hash_keyname d))) (fun hty c6 =>
  let baseCond : List (String × DynValue) :=
    [(keyNameOrNone (mt_hash_keyname d), DynValue.map
      [(ATTR_VALUE_LIST, DynValue.list [DynValue.map [(hty, hash_key)]]),
       (COMPARISON_OPERATOR, DynValue.str EQ)])]
  step (if optListTruthy key_conditions then
          build_key_conditions tr c6 table_name baseCond
            (key_conditions.getD [])
        else pureOp baseCond c6) (fun condMap c7 =>
  let kwargs9 := pyInsert kwargs8 (pythonic KEY_CONDITIONS)
    (DynValue.map condMap)
  let reply := tr QUERY kwargs9
  if reply.resp.ok then
    (Except.ok reply.data, c7, [(QUERY, kwargs9)])
  else
    (Except.error (PyErr.queryError reply.resp.content), c7,
      [(QUERY, kwargs9)]))))))))

/-
Concrete fixtures used by the theorems: a table with string hash key
pk and one further string attribute a, a connection that has it
cached, an empty-cache connection, and a transport stub that always
succeeds and returns that table's description.
-/

/-- Example table metadata: hash key pk of type S, attribute a of
type S. -/
def exTable : MetaTableData :=
  ⟨[⟨"pk", "HASH"⟩], [⟨"pk", "S"⟩, ⟨"a", "S"⟩]⟩

/-- A connection whose cache already holds exTable under name t. -/
def exConn : Conn := ⟨[("t", exTable)]⟩

/-- A transport stub: every call succeeds with status 200 and
describes exTable. -/
def exTr : Transport := fun _ _ => ⟨⟨true, 200, "ok"⟩, exTable, DynValue.null⟩

/-- A transport stub whose every response is the designated bad-request
status. -/
def badReqTr : Transport :=
  fun _ _ => ⟨⟨false, 400, "nf"⟩, exTable, DynValue.null⟩

/-- A transport stub whose every response is a server failure distinct
from the bad-request status. -/
def srvErrTr : Transport :=
  fun _ _ => ⟨⟨false, 500, "boom"⟩, exTable, DynValue.null⟩

/-- Key schema with no HASH entry (malformed metadata). -/
def noHashTable : MetaTableData := ⟨[⟨"sk", "RANGE"⟩], [⟨"sk", "S"⟩]⟩

/-
Claim C1.  The spec says the emitted condition map carries an
AttributeValueList that is an ordered sequence of one typed
AttributeValue per supplied value.  The source expression
[{attr_type: value for value in condition.get(ATTR_VALUE_LIST)}]
(base.py lines 645 and 706) instead builds a one-element list holding a
single dict comprehension that reuses the one key attr_type for every
value, so only the last supplied value survives.  The theorem runs the
embedded query and scan on a condition with two supplied values and
shows the emitted AttributeValueList is the one-element list holding
only the last value.
-/

/-- Claim C1: at a key condition (and a scan filter) supplying the two
values v1 and v2, the request body emitted by query (and scan) holds an
AttributeValueList with exactly one entry, tagged with the declared
type and holding only the last value v2 — not two entries in caller
order as the spec states. -/
theorem C1_condition_value_list_collapses :
    (query exTr exConn "t" (DynValue.str "h") none false none none
        (some [("a", ⟨some "BETWEEN", [DynValue.str "v1", DynValue.str "v2"]⟩)])
        none none none none).2.2 =
      [(QUERY, [(pythonic TABLE_NAME, DynValue.str "t"),
        (pythonic KEY_CONDITIONS, DynValue.map
          [("pk", DynValue.map
            [(ATTR_VALUE_LIST, DynValue.list
              [DynValue.map [("S", DynValue.str "h")]]),
             (COMPARISON_OPERATOR, DynValue.str EQ)]),
           ("a", DynValue.map
            [(ATTR_VALUE_LIST, DynValue.list
              [DynValue.map [("S", DynValue.str "v2")]]),
             (COMPARISON_OPERATOR, DynValue.str "BETWEEN")])])])] ∧
    (scan exTr exConn "t" none none
        (some [("a", ⟨some "EQ", [DynValue.str "v1", DynValue.str "v2"]⟩)])
        none none none none).2.2 =
      [(SCAN, [(pythonic TABLE_NAME, DynValue.str "t"),
        (pythonic SCAN_FILTER, DynValue.map
          [("a", DynValue.map
            [(ATTR_VALUE_LIST, DynValue.list
              [DynValue.map [("S", DynValue.str "v2")]]),
             (COMPARISON_OPERATOR, DynValue.str "EQ")])])])] :=
  ⟨rfl, rfl⟩

/-
Claim C2.  The spec says hash_keyname fails with SchemaError on a
schema with no HASH entry.  The source property (base.py lines 48-58)
contains no raise at all: the memo field simply remains None and the
property returns it.
-/

/-- Claim C2 counterexample: on a key schema with no HASH entry,
hash_keyname returns the absent value None; no error of any kind is
raised (the embedded accessor has no failure outcome), contradicting
the claimed SchemaError. -/
theorem C2_no_hash_returns_none : mt_hash_keyname noHashTable = none := rfl

/-- Claim C2 as amended: when the key schema holds a HASH entry,
hash_keyname returns the attribute name of such an entry (the first);
when it holds none, the property returns None rather than failing. -/
theorem C2_hash_keyname_amended (d : MetaTableData) :
    (mt_hash_keyname d = none ↔ ∀ e ∈ d.keySchema, e.keyType ≠ HASH) ∧
    (∀ s, mt_hash_keyname d = some s →
      ∃ e ∈ d.keySchema, e.keyType = HASH ∧ e.attrName = s) ∧
    (∀ e ∈ d.keySchema, e.keyType = HASH →
      ∃ s, mt_hash_keyname d = some s) := by
  refine ⟨?_, ?_, ?_⟩
  · constructor
    · intro h e he
      rcases hf : d.keySchema.find? (fun a => a.keyType == HASH) with _ | a
      · have := List.find?_eq_none.mp hf e he
        simpa using this
      · simp [mt_hash_keyname, hf] at h
    · intro h
      have hf : d.keySchema.find? (fun a => a.keyType == HASH) = none :=
        List.find?_eq_none.mpr (fun e he => by simpa using h e he)
      simp [mt_hash_keyname, hf]
  · intro s hs
    rcases hf : d.keySchema.find? (fun a => a.keyType == HASH) with _ | a
    · simp [mt_hash_keyname, hf] at hs
    · refine ⟨a, List.mem_of_find?_eq_some hf, ?_, ?_⟩
      · simpa using List.find?_some hf
      · simp [mt_hash_keyname, hf] at hs
        exact hs
  · intro e he hh
    have : (d.keySchema.find? (fun a => a.keyType == HASH)).isSome := by
      rw [List.find?_isSome]
      exact ⟨e, he, by simpa using hh⟩
    rcases Option.isSome_iff_exists.mp this with ⟨a, hf⟩
    exact ⟨a.attrName, by simp [mt_hash_keyname, hf]⟩

/-- Claim C2 witness: the amended theorem applied to the example table
(which has HASH entry pk) and to the no-HASH table. -/
theorem C2_hash_keyname_amended_witness :
    (∃ s, mt_hash_keyname exTable = some s) ∧ mt_hash_keyname noHashTable = none := by
  constructor
  · exact (C2_hash_keyname_amended exTable).2.2 ⟨"pk", "HASH"⟩ (by decide) rfl
  · exact (C2_hash_keyname_amended noHashTable).1.mpr (by decide)

/-
Claim C3.  update_item with an empty or absent update-action map does
always fail with the empty-updates ValueError before the UpdateItem
request is sent, but the identifier map is built first, and building it
fetches the table metadata through the transport when the table is not
cached — so a transport stub does not observe zero invocations.
-/

/-- Transcript of one get_meta_table call: either served from the
cache (no transport call) or exactly one DescribeTable invocation. -/
theorem get_meta_table_calls (tr : Transport) (conn : Conn) (tn : String)
    (refresh : Bool) :
    (get_meta_table tr conn tn refresh).2.2.map Prod.fst = [] ∨
    (get_meta_table tr conn tn refresh).2.2.map Prod.fst = [DESCRIBE_TABLE] := by
  unfold get_meta_table
  dsimp only
  split
  · split
    · right; rfl
    · split
      · right; rfl
      · right; rfl
  · left; rfl

/-- conn_get_identifier_map adds no transport call beyond its
get_meta_table fetch. -/
theorem conn_get_identifier_map_calls (tr : Transport) (conn : Conn)
    (tn : String) (hk : DynValue) (rk : Option DynValue) (key : String) :
    (conn_get_identifier_map tr conn tn hk rk key).2.2 =
      (get_meta_table tr conn tn false).2.2 := by
  unfold conn_get_identifier_map step
  rcases h : get_meta_table tr conn tn false with ⟨res, c, cs⟩
  rcases res with e | a
  · simp
  · simp [liftE]

/-- Claim C3 as amended: with an empty or absent update-action map and
the other optional arguments absent, update_item fails with the
empty-updates ValidationError and never sends an UpdateItem request;
the only transport traffic that can precede the failure is the
metadata DescribeTable fetch performed while building the identifier
map (so a transport stub observes zero invocations only when the table
is already cached). -/
theorem C3_empty_updates_amended (tr : Transport) (conn : Conn) (tn : String)
    (hk : DynValue) (updates : Option (List (String × UpdateSpec)))
    (idm : Kwargs) (c1 : Conn) (cs : List (String × Kwargs))
    (hupd : updates = none ∨ updates = some [])
    (hid : conn_get_identifier_map tr conn tn hk none KEY =
      (Except.ok idm, c1, cs)) :
    update_item tr conn tn hk none updates none none none none =
      (Except.error PyErr.emptyAttributeUpdates, c1, cs) ∧
    UPDATE_ITEM ∉ cs.map Prod.fst := by
  constructor
  · rcases hupd with h | h <;> subst h <;>
      simp [update_item, step, hid, pureOp, liftE, optStrTruthy, optListTruthy]
  · have hcs : cs = (get_meta_table tr conn tn false).2.2 := by
      have h := conn_get_identifier_map_calls tr conn tn hk none KEY
      rw [hid] at h
      exact h
    rcases get_meta_table_calls tr conn tn false with h | h
    · rw [hcs, h]
      simp
    · rw [hcs, h]
      decide

/-- Claim C3 witness: the amended theorem applied to an empty-cache
connection and the always-succeeding transport stub; the identifier
map, the refreshed cache, and the one-element DescribeTable transcript
are supplied concretely. -/
theorem C3_empty_updates_amended_witness :
    update_item exTr ⟨[]⟩ "t" (DynValue.str "h") none (some [])
        none none none none =
      (Except.error PyErr.emptyAttributeUpdates, ⟨[("t", exTable)]⟩,
        [(DESCRIBE_TABLE, [(pythonic TABLE_NAME, DynValue.str "t")])]) ∧
    UPDATE_ITEM ∉
      ([(DESCRIBE_TABLE, [(pythonic TABLE_NAME, DynValue.str "t")])].map
        (Prod.fst (α := String) (β := Kwargs))) :=
  C3_empty_updates_amended exTr ⟨[]⟩ "t" (DynValue.str "h") (some [])
    [(pythonic KEY, DynValue.map [("pk", DynValue.map
      [("S", DynValue.str "h")])])]
    ⟨[("t", exTable)]⟩
    [(DESCRIBE_TABLE, [(pythonic TABLE_NAME, DynValue.str "t")])]
    (Or.inr rfl) rfl

/-- Claim C3 counterexample: on an empty-cache connection the call with
an empty update map does fail with the ValidationError, but the
transport stub observes one DescribeTable invocation, not zero. -/
theorem C3_describe_precedes_failure :
    (update_item exTr ⟨[]⟩ "t" (DynValue.str "h") none (some [])
      none none none none).1 = Except.error PyErr.emptyAttributeUpdates ∧
    (update_item exTr ⟨[]⟩ "t" (DynValue.str "h") none (some [])
      none none none none).2.2.map Prod.fst = [DESCRIBE_TABLE] :=
  ⟨rfl, rfl⟩

/-
Claim C4.  The source guards create_table's two required arguments
with is-None tests only (base.py lines 224 and 244), so supplying an
empty list satisfies neither guard: the call proceeds and the request
is sent with empty AttributeDefinitions and KeySchema.
-/

/-- Claim C4 counterexample: create_table with attribute_definitions
and key_schema supplied as empty lists raises no ValidationError — the
call succeeds and one CreateTable request is sent. -/
theorem C4_empty_lists_are_sent :
    (create_table exTr "t" (some []) (some []) DynValue.null DynValue.null
      none none).1 = Except.ok DynValue.null ∧
    (create_table exTr "t" (some []) (some []) DynValue.null DynValue.null
      none none).2.map Prod.fst = [CREATE_TABLE] :=
  ⟨rfl, rfl⟩

/-- Claim C4 as amended: create_table fails with the required-argument
ValueError, sending nothing, exactly when attribute_definitions or
key_schema is omitted (None); lists that are merely empty are accepted
and a CreateTable request is always sent. -/
theorem C4_required_arguments_amended (tr : Transport) (tn : String)
    (rcu wcu : DynValue) :
    (∀ ks gsi lsi, create_table tr tn none ks rcu wcu gsi lsi =
      (Except.error (PyErr.requiredArgument "attribute_definitions"), [])) ∧
    (∀ ad gsi lsi, create_table tr tn (some ad) none rcu wcu gsi lsi =
      (Except.error (PyErr.requiredArgument "key_schema"), [])) ∧
    (∀ ad ks, (create_table tr tn (some ad) (some ks) rcu wcu
      none none).2.map Prod.fst = [CREATE_TABLE]) := by
  refine ⟨fun ks gsi lsi => rfl, fun ad gsi lsi => rfl, fun ad ks => ?_⟩
  simp only [create_table, optListTruthy]
  simp [apply_ite]

/-
Claim C5.  create_table emits the key schema sorted ascending by the
uppercased key role string (base.py line 252), so every HASH entry
precedes every RANGE entry; the emitted list is a permutation of the
transcoded input.
-/

/-- Claim C5: for every input key schema, the emitted key schema is
sorted ascending by key role and is a permutation of the transcoded
input; consequently a RANGE entry can only appear after every HASH
entry; and the CreateTable request body carries exactly the rendering
of that sorted list. -/
theorem C5_key_schema_role_sorted (ks : List KeySchemaArg) :
    List.Sorted keyRoleLE (emitKeySchema ks) ∧
    (emitKeySchema ks).Perm (ks.map transcodeKey) ∧
    (∀ i j (hi : i < (emitKeySchema ks).length)
        (hj : j < (emitKeySchema ks).length),
      ((emitKeySchema ks).get ⟨i, hi⟩).keyType = RANGE →
      ((emitKeySchema ks).get ⟨j, hj⟩).keyType = HASH → j < i) ∧
    (∀ (tr : Transport) tn ad rcu wcu,
      (create_table tr tn (some ad) (some ks) rcu wcu none none).2.map
        (fun c => pyGet c.2 (pythonic KEY_SCHEMA)) =
      [some (DynValue.list ((emitKeySchema ks).map renderKeyOut))]) := by
  refine ⟨List.sorted_insertionSort _ _, List.perm_insertionSort _ _, ?_, ?_⟩
  · intro i j hi hj hri hhj
    rcases Nat.lt_trichotomy i j with h | h | h
    · have hp := List.pairwise_iff_get.mp
        (List.sorted_insertionSort keyRoleLE (ks.map transcodeKey))
        ⟨i, hi⟩ ⟨j, hj⟩ h
      have hc : pyStrLe RANGE HASH = true := by
        rw [← hri, ← hhj]; exact hp
      exact absurd hc (by decide)
    · subst h
      rw [hri] at hhj
      exact absurd hhj (by decide)
    · exact h
  · intro tr tn ad rcu wcu
    simp only [create_table, optListTruthy]
    simp [apply_ite]
    rfl

/-- Example input ordering for the C5 witness: RANGE first, lowercase
roles. -/
def exKS : List KeySchemaArg :=
  [⟨DynValue.str "sk", "range"⟩, ⟨DynValue.str "pk", "hash"⟩]

/-- Claim C5 witness: on the input ordering [sk RANGE, pk HASH] the
emitted schema is sorted, and the entry holding RANGE (position 1)
comes strictly after the entry holding HASH (position 0). -/
theorem C5_key_schema_role_sorted_witness :
    List.Sorted keyRoleLE (emitKeySchema exKS) ∧ (0 : Nat) < 1 :=
  ⟨(C5_key_schema_role_sorted exKS).1,
    (C5_key_schema_role_sorted exKS).2.2.1 1 0 (by decide) (by decide)
      rfl rfl⟩

/-
Claim C6.  get_attribute_type returns the declared type of the first
matching attribute definition, and on an unknown name fails with the
ValueError that interpolates exactly the declared attribute names in
declaration order (base.py lines 80-88); the spec taxonomy calls this
error UnknownAttributeError.
-/

/-- Claim C6: for a name absent from the attribute definitions,
get_attribute_type fails with the unknown-attribute error carrying
exactly the declared names; for a declared name it returns the
declared scalar type of a definition bearing that name. -/
theorem C6_attribute_type_lookup (d : MetaTableData) (name : String) :
    (name ∉ attrNames d → mt_get_attribute_type d name =
      Except.error (PyErr.unknownAttribute name (attrNames d))) ∧
    (∀ a ∈ d.attrDefinitions, a.attrName = name →
      ∃ b ∈ d.attrDefinitions, b.attrName = name ∧
        mt_get_attribute_type d name = Except.ok b.attrType) := by
  constructor
  · intro h
    have hf : d.attrDefinitions.find? (fun a => a.attrName == name) = none := by
      rw [List.find?_eq_none]
      intro x hx
      simp only [beq_iff_eq]
      intro heq
      exact h (by rw [attrNames]; exact List.mem_map.mpr ⟨x, hx, heq⟩)
    simp [mt_get_attribute_type, hf]
  · intro a ha hname
    have hs : (d.attrDefinitions.find? (fun x => x.attrName == name)).isSome := by
      rw [List.find?_isSome]
      exact ⟨a, ha, by simp [hname]⟩
    rcases Option.isSome_iff_exists.mp hs with ⟨b, hf⟩
    refine ⟨b, List.mem_of_find?_eq_some hf, ?_, ?_⟩
    · simpa using List.find?_some hf
    · simp [mt_get_attribute_type, hf]

/-- Claim C6 witness: on the example table, the undeclared name zzz
fails with the error listing exactly pk and a, and the declared name
pk resolves to its declared type. -/
theorem C6_attribute_type_lookup_witness :
    mt_get_attribute_type exTable "zzz" =
      Except.error (PyErr.unknownAttribute "zzz" ["pk", "a"]) ∧
    (∃ b ∈ exTable.attrDefinitions, b.attrName = "pk" ∧
      mt_get_attribute_type exTable "pk" = Except.ok b.attrType) := by
  constructor
  · exact (C6_attribute_type_lookup exTable "zzz").1 (by decide)
  · exact (C6_attribute_type_lookup exTable "pk").2 ⟨"pk", "S"⟩ (by decide) rfl

/-
Claim C7.  describe_table refreshes the metadata through the
transport; a non-ok response with the designated bad-request status
yields the absent result None, and any other non-ok response raises
TableError carrying the response content (base.py lines 186-201 and
335-343).
-/

/-- Claim C7: when the transport response to the DescribeTable request
is not ok, describe_table returns None if the status is the designated
bad-request status, and fails with the table OperationError carrying
the response content for every other status. -/
theorem C7_describe_table_not_ok (tr : Transport) (conn : Conn) (tn : String)
    (hok : (tr DESCRIBE_TABLE
      [(pythonic TABLE_NAME, DynValue.str tn)]).resp.ok = false) :
    ((tr DESCRIBE_TABLE
        [(pythonic TABLE_NAME, DynValue.str tn)]).resp.status_code =
        HTTP_BAD_REQUEST →
      describe_table tr conn tn = (Except.ok none, conn,
        [(DESCRIBE_TABLE, [(pythonic TABLE_NAME, DynValue.str tn)])])) ∧
    ((tr DESCRIBE_TABLE
        [(pythonic TABLE_NAME, DynValue.str tn)]).resp.status_code ≠
        HTTP_BAD_REQUEST →
      describe_table tr conn tn = (Except.error (PyErr.tableError
        (tr DESCRIBE_TABLE
          [(pythonic TABLE_NAME, DynValue.str tn)]).resp.content), conn,
        [(DESCRIBE_TABLE, [(pythonic TABLE_NAME, DynValue.str tn)])])) := by
  constructor
  · intro hst
    simp [describe_table, get_meta_table, step, hok, hst]
  · intro hst
    simp [describe_table, get_meta_table, step, hok, hst]

/-- Claim C7 witness: the bad-request stub yields the absent result,
the server-failure stub yields the table error carrying its content. -/
theorem C7_describe_table_not_ok_witness :
    describe_table badReqTr exConn "t" = (Except.ok none, exConn,
      [(DESCRIBE_TABLE, [(pythonic TABLE_NAME, DynValue.str "t")])]) ∧
    describe_table srvErrTr exConn "t" = (Except.error
      (PyErr.tableError "boom"), exConn,
      [(DESCRIBE_TABLE, [(pythonic TABLE_NAME, DynValue.str "t")])]) := by
  constructor
  · exact (C7_describe_table_not_ok badReqTr exConn "t" rfl).1 rfl
  · exact (C7_describe_table_not_ok srvErrTr exConn "t" rfl).2 (by decide)

/-
Claim C8.  batch_write_item rejects only the call where both item
arguments are None (base.py line 524, an is-None test): supplying
empty lists passes the guard, so the call proceeds and sends a
BatchWriteItem request whose per-table list is empty.
-/

/-- A dict-valued (already tagged) attribute value. -/
def DynValue.isMap : DynValue → Bool
  | .map _ => true
  | _ => false

/-- When the table is cached, get_meta_table answers from the cache
with no transport call. -/
theorem get_meta_table_cached (tr : Transport) (conn : Conn) (tn : String)
    (d : MetaTableData) (hc : pyGet conn.tables tn = some d) :
    get_meta_table tr conn tn false = (Except.ok (some d), conn, []) := by
  have hs : (conn.tables.find? (fun p => p.1 == tn)).isNone = false := by
    rcases h : conn.tables.find? (fun p => p.1 == tn) with _ | x
    · rw [pyGet, h] at hc
      simp at hc
    · rw [h]
      rfl
  simp [get_meta_table, hs, hc]

/-- An item whose values are all pre-tagged dicts builds without any
attribute-type lookup. -/
theorem buildItemEntries_tagged (d : MetaTableData) :
    ∀ (item : List (String × DynValue)),
      item.all (fun kv => kv.2.isMap) = true →
      ∃ es, buildItemEntries d item = Except.ok es := by
  intro item
  induction item with
  | nil => exact fun _ => ⟨[], rfl⟩
  | cons kv rest ih =>
    intro h
    simp only [List.all_cons, Bool.and_eq_true] at h
    rcases kv with ⟨k, v⟩
    rcases ih h.2 with ⟨es, hes⟩
    cases v
    case map m =>
      exact ⟨(k, DynValue.map m) :: es,
        by simp [buildItemEntries, hes, Except.map]⟩
    all_goals exact absurd h.1 (by simp [DynValue.isMap])

/-- With the table cached and a pre-tagged item, the item attribute
map builds with no transport call and no error. -/
theorem conn_get_item_attribute_map_cached (tr : Transport) (conn : Conn)
    (tn : String) (d : MetaTableData) (item : List (String × DynValue))
    (ik : String) (pk : Bool) (hc : pyGet conn.tables tn = some d)
    (htag : item.all (fun kv => kv.2.isMap) = true) :
    ∃ m, conn_get_item_attribute_map tr conn tn item ik pk =
      (Except.ok m, conn, []) := by
  rcases buildItemEntries_tagged d item htag with ⟨es, hes⟩
  refine ⟨[(if pk then pythonic ik else ik, DynValue.map es)], ?_⟩
  simp [conn_get_item_attribute_map, step, get_meta_table_cached tr conn tn d hc,
    liftE, requireMeta, mt_get_item_attribute_map, hes, Except.map, Except.bind]

/-- With the table cached and pre-tagged items, the put-request list
builds with no transport call and no error. -/
theorem build_put_list_cached (tr : Transport) (conn : Conn) (tn : String)
    (d : MetaTableData) (hc : pyGet conn.tables tn = some d) :
    ∀ (items : List (List (String × DynValue))),
      items.all (fun item => item.all (fun kv => kv.2.isMap)) = true →
      ∃ l, build_put_list tr conn tn items = (Except.ok l, conn, []) := by
  intro items
  induction items with
  | nil => exact fun _ => ⟨[], rfl⟩
  | cons item rest ih =>
    intro h
    simp only [List.all_cons, Bool.and_eq_true] at h
    rcases conn_get_item_attribute_map_cached tr conn tn d item ITEM false hc
      h.1 with ⟨m, hm⟩
    rcases ih h.2 with ⟨l, hl⟩
    exact ⟨DynValue.map [(PUT_REQUEST, DynValue.map m)] :: l,
      by simp [build_put_list, step, hm, hl, pureOp]⟩

/-- With the table cached and pre-tagged items, the delete-request
list builds with no transport call and no error. -/
theorem build_delete_list_cached (tr : Transport) (conn : Conn) (tn : String)
    (d : MetaTableData) (hc : pyGet conn.tables tn = some d) :
    ∀ (items : List (List (String × DynValue))),
      items.all (fun item => item.all (fun kv => kv.2.isMap)) = true →
      ∃ l, build_delete_list tr conn tn items = (Except.ok l, conn, []) := by
  intro items
  induction items with
  | nil => exact fun _ => ⟨[], rfl⟩
  | cons item rest ih =>
    intro h
    simp only [List.all_cons, Bool.and_eq_true] at h
    rcases conn_get_item_attribute_map_cached tr conn tn d item KEY false hc
      h.1 with ⟨m, hm⟩
    rcases ih h.2 with ⟨l, hl⟩
    exact ⟨DynValue.map [(DELETE_REQUEST, DynValue.map m)] :: l,
      by simp [build_delete_list, step, hm, hl, pureOp]⟩

/-- Claim C8 as amended: batch_write_item fails with the ValueError,
sending nothing, exactly when both put_items and delete_items are
omitted (None); whenever both are supplied — including as empty
lists — the call proceeds and sends exactly one BatchWriteItem
request. -/
theorem C8_batch_write_amended :
    (∀ (tr : Transport) (conn : Conn) (tn : String) rcc ricm,
      batch_write_item tr conn tn none none rcc ricm =
        (Except.error PyErr.putOrDeleteRequired, conn, [])) ∧
    (∀ (tr : Transport) (conn : Conn) (tn : String) (d : MetaTableData)
        (ps ds : List (List (String × DynValue))),
      pyGet conn.tables tn = some d →
      (ps ++ ds).all (fun item => item.all (fun kv => kv.2.isMap)) = true →
      (batch_write_item tr conn tn (some ps) (some ds) none none).2.2.map
        Prod.fst = [BATCH_WRITE_ITEM]) := by
  constructor
  · intro tr conn tn rcc ricm
    rfl
  · intro tr conn tn d ps ds hc htag
    rw [List.all_append, Bool.and_eq_true] at htag
    rcases build_put_list_cached tr conn tn d hc ps htag.1 with ⟨lp, hlp⟩
    rcases build_delete_list_cached tr conn tn d hc ds htag.2 with ⟨ld, hld⟩
    simp only [batch_write_item]
    by_cases hb1 : optListTruthy (some ps) <;>
      by_cases hb2 : optListTruthy (some ds) <;>
      simp [hb1, hb2, step, liftE, pureOp, optStrTruthy, hlp, hld] <;>
      split <;> rfl

/-- Claim C8 witness: part one of the amended theorem at concrete
arguments, and part two on the cached example table with one
pre-tagged put item and one pre-tagged delete item. -/
theorem C8_batch_write_amended_witness :
    batch_write_item exTr exConn "t" none none none none =
      (Except.error PyErr.putOrDeleteRequired, exConn, []) ∧
    (batch_write_item exTr exConn "t"
      (some [[("a", DynValue.map [("S", DynValue.str "x")])]])
      (some [[("pk", DynValue.map [("S", DynValue.str "k")])]])
      none none).2.2.map Prod.fst = [BATCH_WRITE_ITEM] :=
  ⟨C8_batch_write_amended.1 exTr exConn "t" none none,
   C8_batch_write_amended.2 exTr exConn "t" exTable
     [[("a", DynValue.map [("S", DynValue.str "x")])]]
     [[("pk", DynValue.map [("S", DynValue.str "k")])]] rfl (by decide)⟩

/-- Claim C8 counterexample: with both item arguments supplied as
empty lists the call does not fail with any validation error — it
succeeds against the ok-stub transport, and the transport observes a
BatchWriteItem request (carrying an empty per-table list) rather than
nothing. -/
theorem C8_empty_lists_proceed :
    (batch_write_item exTr exConn "t" (some []) (some []) none none).1 =
      Except.ok DynValue.null ∧
    (batch_write_item exTr exConn "t" (some []) (some []) none
      none).2.2 = [(BATCH_WRITE_ITEM, [(pythonic REQUEST_ITEMS,
        DynValue.map [("t", DynValue.list [])])])] :=
  ⟨rfl, rfl⟩

/-
Claim C9.  scan gates segment and total_segments on Python truthiness
(base.py lines 633-636), so a zero segment (a legal first-segment
number) is silently dropped from the request body while a non-zero
total_segments still passes; only non-zero integers pass through
unchanged.
-/

/-- Claim C9 counterexample: scanning with segment 0 and
total_segments 2, the emitted request body has no Segment field at all
while TotalSegments is present — the claim says both integers pass
through unchanged with neither dropped. -/
theorem C9_zero_segment_dropped :
    pyGet ((scan exTr exConn "t" none none none none none (some 0)
      (some 2)).2.2.headD ("", [])).2 (pythonic SEGMENT) = none ∧
    pyGet ((scan exTr exConn "t" none none none none none (some 0)
      (some 2)).2.2.headD ("", [])).2 (pythonic TOTAL_SEGMENTS) =
      some (DynValue.num 2) :=
  ⟨rfl, rfl⟩

/-- Claim C9 as amended: segment and total_segments pass through into
the request body unchanged when non-zero, but a zero value is treated
as falsy and its field is dropped from the request. -/
theorem C9_scan_segments_amended (tr : Transport) (conn : Conn) (tn : String)
    (s t : Int) (hs : s ≠ 0) (ht : t ≠ 0) :
    (scan tr conn tn none none none none none (some s) (some t)).2.2 =
      [(SCAN, [(pythonic TABLE_NAME, DynValue.str tn),
        (pythonic SEGMENT, DynValue.num s),
        (pythonic TOTAL_SEGMENTS, DynValue.num t)])] ∧
    (scan tr conn tn none none none none none (some 0) (some t)).2.2 =
      [(SCAN, [(pythonic TABLE_NAME, DynValue.str tn),
        (pythonic TOTAL_SEGMENTS, DynValue.num t)])] := by
  have h1 : optIntTruthy (some s) = true := by simp [optIntTruthy, hs]
  have h2 : optIntTruthy (some t) = true := by simp [optIntTruthy, ht]
  have h0 : optIntTruthy (some 0) = false := rfl
  have e1 : optStrTruthy none = false := rfl
  have e2 : optIntTruthy none = false := rfl
  have e3 : optListTruthy (none : Option (List (String × Condition))) = false :=
    rfl
  constructor
  · simp [scan, step, liftE, pureOp, h1, h2, e1, e2, e3]
    split <;> rfl
  · simp [scan, step, liftE, pureOp, h0, h2, e1, e2, e3]
    split <;> rfl

/-- Claim C9 witness: the amended theorem at segment 1 of 2 total. -/
theorem C9_scan_segments_amended_witness :
    (scan exTr exConn "t" none none none none none (some 1)
      (some 2)).2.2 =
      [(SCAN, [(pythonic TABLE_NAME, DynValue.str "t"),
        (pythonic SEGMENT, DynValue.num 1),
        (pythonic TOTAL_SEGMENTS, DynValue.num 2)])] :=
  (C9_scan_segments_amended exTr exConn "t" 1 2 (by decide) (by decide)).1

/-
Claim C10.  The four enumerated options are checked on the uppercased
input and the uppercased string is what enters the request body
(base.py lines 372-400 and 683-686), so any case-variant spelling of
an allowed value is accepted and normalized; the update-item action
check (base.py line 469) compares the raw action string, so a
lowercase action is rejected.
-/

/-- Claim C10: for all four enumerated options, any input whose
uppercasing is an allowed value is accepted and the uppercased string
is what the request carries; by contrast update_item rejects the
lowercase action put while accepting PUT, because the action
membership test is on the raw string. -/
theorem C10_enum_uppercase_normalization :
    (∀ s, pyUpper s ∈ RETURN_CONSUMED_CAPACITY_VALUES →
      get_consumed_capacity_map s = Except.ok
        [(pythonic RETURN_CONSUMED_CAPACITY, DynValue.str (pyUpper s))]) ∧
    (∀ s, pyUpper s ∈ RETURN_VALUES_VALUES →
      get_return_values_map s = Except.ok
        [(pythonic RETURN_VALUES, DynValue.str (pyUpper s))]) ∧
    (∀ s, pyUpper s ∈ RETURN_ITEM_COLL_METRICS_VALUES →
      get_item_collection_map s = Except.ok
        [(pythonic RETURN_ITEM_COLL_METRICS, DynValue.str (pyUpper s))]) ∧
    (∀ s, pyUpper s ∈ SELECT_VALUES →
      pyGet ((query exTr exConn "t" (DynValue.str "h") none false none none
        none none none none (some s)).2.2.headD ("", [])).2
        (pythonic SELECT) = some (DynValue.str (pyUpper s))) ∧
    ((update_item exTr exConn "t" (DynValue.str "h") none
        (some [("a", ⟨some "put", DynValue.str "v"⟩)])
        none none none none).1 =
      Except.error (PyErr.invalidEnum ACTION ATTR_UPDATE_ACTIONS) ∧
     (update_item exTr exConn "t" (DynValue.str "h") none
        (some [("a", ⟨some "PUT", DynValue.str "v"⟩)])
        none none none none).1 = Except.ok DynValue.null) := by
  refine ⟨?_, ?_, ?_, ?_, rfl, rfl⟩
  · intro s h
    simp [get_consumed_capacity_map, h]
  · intro s h
    simp [get_return_values_map, h]
  · intro s h
    simp [get_item_collection_map, h]
  · intro s h
    have hne : s ≠ "" := by
      intro he
      subst he
      rw [show pyUpper "" = "" from rfl] at h
      exact absurd h (by decide)
    have ht : optStrTruthy (some s) = true := by simp [optStrTruthy, hne]
    have e1 : optStrTruthy none = false := rfl
    have e2 : optIntTruthy none = false := rfl
    have e3 : optListTruthy (none : Option (List String)) = false := rfl
    have e4 : optListTruthy (none : Option (List (String × Condition))) =
      false := rfl
    simp [query, step, liftE, pureOp, ht, h, e1, e2, e3, e4]
    rfl

/-- Claim C10 witness: lowercase spellings of allowed values accepted
and normalized by each helper and by query's select. -/
theorem C10_enum_uppercase_normalization_witness :
    get_consumed_capacity_map "total" = Except.ok
      [(pythonic RETURN_CONSUMED_CAPACITY, DynValue.str "TOTAL")] ∧
    get_return_values_map "all_old" = Except.ok
      [(pythonic RETURN_VALUES, DynValue.str "ALL_OLD")] ∧
    get_item_collection_map "size" = Except.ok
      [(pythonic RETURN_ITEM_COLL_METRICS, DynValue.str "SIZE")] ∧
    pyGet ((query exTr exConn "t" (DynValue.str "h") none false none none
      none none none none (some "count")).2.2.headD ("", [])).2
      (pythonic SELECT) = some (DynValue.str "COUNT") :=
  ⟨C10_enum_uppercase_normalization.1 "total" (by decide),
   C10_enum_uppercase_normalization.2.1 "all_old" (by decide),
   C10_enum_uppercase_normalization.2.2.1 "size" (by decide),
   C10_enum_uppercase_normalization.2.2.2.1 "count" (by decide)⟩

end Pynamo
